import Mathlib

/-!
Verification of the cascading multi-provider CAD analysis orchestrator
(`backend/app/cad/multi_model_analyzer.py`) and the CAD-analysis indexing
hand-off (`backend/app/services/rag_service.py`).

The Python code is shallowly embedded: outbound network behaviour
(`model.generate_content`, the OpenRouter HTTP POST, the vector store) is
abstracted by oracles supplied as function arguments, and every embedded
operation additionally returns the ordered list of provider attempts it
made, so call counts and call order are provable.  Python exceptions are
embedded as an `Except` error channel whose error type distinguishes the
exception classes the source raises (`ValueError`, `QuotaExceededError`,
`FileNotFoundError`, plain `Exception`) together with the exception message.
-/

namespace DocuMind

/-- Opaque binary payload (Python `bytes`). -/
abbrev Bytes := List Nat

/-- Behaviour of one underlying Gemini `generate_content` call: either it
returns response text or it raises an exception carrying a message. -/
inductive RawResult where
  | ok (text : String)
  | raiseExc (msg : String)
deriving Repr, DecidableEq

/-- Behaviour of one OpenRouter HTTP POST: success with response text,
an `httpx.HTTPStatusError` (status code plus response body), or any other
exception with its message. -/
inductive ORRaw where
  | ok (text : String)
  | httpError (status : Nat) (body : String)
  | raiseExc (msg : String)
deriving Repr, DecidableEq

/-- One outbound provider call (network attempt), recording which backend
and which model name was called. -/
inductive Attempt where
  | gemini (modelName : String)
  | openrouter (modelId : String)
deriving Repr, DecidableEq

/-- The exception classes raised by the embedded code, with their messages:
`valueError` = Python `ValueError`, `quotaExceeded` = the repository's
`QuotaExceededError`, `fileNotFound` = `FileNotFoundError`,
`exc` = plain `Exception`. -/
inductive Err where
  | valueError (msg : String)
  | quotaExceeded (msg : String)
  | fileNotFound (msg : String)
  | exc (msg : String)
deriving Repr, DecidableEq

/-- One entry of `MultiModelCADAnalyzer.MODELS`: a model descriptor.
Fields absent from a given Python dict entry are `none` / defaulted. -/
structure ModelInfo where
  name : String
  provider : String
  fallback_provider : Option String := none
  fallback_model : Option String := none
  capabilities : List String
  context_window : String
  free : Bool
  notes : String
  api_model : Option String := none
deriving Repr, DecidableEq

/-- The static model catalogue `MultiModelCADAnalyzer.MODELS`, key order as
in the source. -/
def MODELS : List (String × ModelInfo) := [
  ("gemini-2.5-flash",
   { name := "Gemini 2.5 Flash", provider := "GEMINI_DIRECT",
     fallback_provider := some "GEMINI_DIRECT",
     fallback_model := some "gemini-2.5-flash-lite",
     capabilities := ["vision", "fast"], context_window := "1M tokens",
     free := true, notes := "Google AI Studio (recommended)",
     api_model := some "gemini-2.5-flash" }),
  ("gemini-2.5-flash-lite",
   { name := "Gemini 2.5 Flash Lite", provider := "GEMINI_DIRECT",
     capabilities := ["vision", "fast", "lite"], context_window := "1M tokens",
     free := true, notes := "Lighter version, better for quota limits",
     api_model := some "gemini-2.5-flash-lite" }),
  ("google/gemini-2.0-flash-exp:free",
   { name := "Gemini 2.0 Flash (OpenRouter)", provider := "OPENROUTER",
     capabilities := ["vision", "fast"], context_window := "1M tokens",
     free := true, notes := "OpenRouter fallback (rate limited)" }),
  ("nvidia/nemotron-nano-12b-v2-vl:free",
   { name := "NVIDIA Nemotron Nano VL", provider := "OPENROUTER",
     capabilities := ["vision", "technical"], context_window := "32K tokens",
     free := true, notes := "Optimized for technical diagrams" }),
  ("qwen/qwen-2.5-vl-7b-instruct:free",
   { name := "Qwen 2.5 VL 7B", provider := "OPENROUTER",
     capabilities := ["vision", "fast"], context_window := "32K tokens",
     free := true, notes := "Qwen vision model" }),
  ("meta-llama/llama-3.3-70b-instruct:free",
   { name := "Llama 3.3 70B Instruct", provider := "OPENROUTER",
     capabilities := ["reasoning", "large_context"], context_window := "128K tokens",
     free := true, notes := "Best free text model" }),
  ("google/gemma-3-27b-it:free",
   { name := "Gemma 3 27B IT", provider := "OPENROUTER",
     capabilities := ["reasoning", "fast"], context_window := "8K tokens",
     free := true, notes := "Fast Google model" }),
  ("openai/gpt-oss-20b:free",
   { name := "GPT OSS 20B", provider := "OPENROUTER",
     capabilities := ["reasoning"], context_window := "16K tokens",
     free := true, notes := "Open source GPT-style" }),
  ("deepseek/deepseek-r1",
   { name := "DeepSeek R1", provider := "OPENROUTER",
     capabilities := ["reasoning", "advanced"], context_window := "64K tokens",
     free := false, notes := "Excellent reasoning (paid)" }),
  ("qwen/qwen3-235b-a22b",
   { name := "Qwen 3 235B", provider := "OPENROUTER",
     capabilities := ["reasoning", "advanced"], context_window := "32K tokens",
     free := false, notes := "Large reasoning model (paid)" })]

/-- Analyzer instance state: the keys of `self.gemini_models` (the Gemini
models the constructor managed to initialise) and `self.openrouter_api_key`
(an optional string, tested for Python truthiness by the cascade). -/
structure Analyzer where
  gemini_models : List String
  openrouter_api_key : Option String
deriving Repr, DecidableEq

/-- Python truthiness of a string (non-empty strings are truthy). -/
def pyTruthyStr (s : String) : Bool := !(s == "")

/-- Python truthiness of `self.openrouter_api_key` (`if self.openrouter_api_key:`). -/
def Analyzer.hasORKey (A : Analyzer) : Bool :=
  match A.openrouter_api_key with
  | some k => pyTruthyStr k
  | none => false

/-- Character-list version of "starts with". -/
def startsWithChars : List Char → List Char → Bool
  | [], _ => true
  | _ :: _, [] => false
  | a :: as, b :: bs => a == b && startsWithChars as bs

/-- Character-list version of "occurs as a contiguous substring". -/
def occursInChars (pat : List Char) : List Char → Bool
  | [] => startsWithChars pat []
  | b :: bs => startsWithChars pat (b :: bs) || occursInChars pat bs

/-- Substring test used to embed Python's `in` on strings. -/
def strContains (s pat : String) : Bool :=
  occursInChars pat.toList s.toList

/-- Lower-casing used to embed Python's `str.lower()` (ASCII suffices for
the `"quota"` match the classifier performs). -/
def strToLower (s : String) : String := ⟨s.data.map Char.toLower⟩

/-- The quota classification of `analyze_with_gemini_direct`:
`"429" in error_msg or "quota" in error_msg.lower()`. -/
def quotaMsg (error_msg : String) : Bool :=
  strContains error_msg "429" || strContains (strToLower error_msg) "quota"

/-- `analyze_with_gemini_direct`: one Google Studio Gemini call.  Raises a
plain `Exception` (no provider call) when the model was never initialised;
otherwise makes one `generate_content` call (behaviour given by `gemOracle`,
keyed by model name; image decoding and the image payload are part of that
call and any of their failures surface through the oracle's raised message)
and classifies a raised message as `QuotaExceededError` when it mentions
429/quota, else rewraps it as a plain `Exception`. -/
def analyze_with_gemini_direct (A : Analyzer) (gemOracle : String → RawResult)
    (image_bytes : Option Bytes) (prompt : String) (model_name : String) :
    Except Err String × List Attempt :=
  if A.gemini_models.contains model_name then
    match gemOracle model_name with
    | .ok text => (.ok text, [.gemini model_name])
    | .raiseExc error_msg =>
      if quotaMsg error_msg then
        (.error (.quotaExceeded ("Gemini quota exceeded: " ++ error_msg)),
         [.gemini model_name])
      else
        (.error (.exc ("Gemini API error: " ++ error_msg)), [.gemini model_name])
  else
    (.error (.exc ("Gemini model " ++ model_name ++ " not initialized")), [])

/-- `analyze_with_openrouter`: one OpenRouter chat-completions POST
(behaviour given by `orOracle`, keyed by model id; the request payload,
base64 image inlining and the 60s timeout are part of that call).  An
`httpx.HTTPStatusError` is rewrapped as
`Exception("OpenRouter error (status): body[:200]")`; any other exception as
`Exception("OpenRouter failed: ...")`.  Both are plain `Exception`s — this
layer never raises `QuotaExceededError`. -/
def analyze_with_openrouter (orOracle : String → ORRaw)
    (image_bytes : Option Bytes) (prompt : String) (model_id : String) :
    Except Err String × List Attempt :=
  match orOracle model_id with
  | .ok text => (.ok text, [.openrouter model_id])
  | .httpError status body =>
    (.error (.exc ("OpenRouter error (" ++ toString status ++ "): " ++ body.take 200)),
     [.openrouter model_id])
  | .raiseExc msg =>
    (.error (.exc ("OpenRouter failed: " ++ msg)), [.openrouter model_id])

/-- The tail of the GEMINI_DIRECT cascade shared by every quota path: the
"last resort" OpenRouter attempt (guarded by the truthiness of
`self.openrouter_api_key`, any failure absorbed) followed by the
`"All Gemini sources exhausted (quota exceeded)"` raise. -/
def openrouterLastResort (A : Analyzer) (orOracle : String → ORRaw)
    (image_bytes : Option Bytes) (prompt : String) (acc : List Attempt) :
    Except Err (String × String) × List Attempt :=
  if A.hasORKey then
    match analyze_with_openrouter orOracle image_bytes prompt
        "google/gemini-2.0-flash-exp:free" with
    | (.ok response, t3) =>
      (.ok (response, "OpenRouter Gemini (fallback)"), acc ++ t3)
    | (.error _, t3) =>
      (.error (.exc "All Gemini sources exhausted (quota exceeded)"), acc ++ t3)
  else
    (.error (.exc "All Gemini sources exhausted (quota exceeded)"), acc)

/-- The handler body of `except QuotaExceededError` in
`analyze_with_auto_fallback`: try the declared `fallback_model` when it is
truthy and initialised (any failure of that attempt — quota or not — is
absorbed), then fall through to the OpenRouter last resort.  `t1` is the
attempt trace of the primary call. -/
def quotaFallbackPhase (A : Analyzer) (gemOracle : String → RawResult)
    (orOracle : String → ORRaw) (image_bytes : Option Bytes) (prompt : String)
    (model_info : ModelInfo) (t1 : List Attempt) :
    Except Err (String × String) × List Attempt :=
  match model_info.fallback_model with
  | some fallback_model =>
    if pyTruthyStr fallback_model && A.gemini_models.contains fallback_model then
      match analyze_with_gemini_direct A gemOracle image_bytes prompt
          fallback_model with
      | (.ok response, t2) =>
        (.ok (response, "Google Studio " ++ fallback_model ++ " (fallback)"),
         t1 ++ t2)
      | (.error _, t2) =>
        openrouterLastResort A orOracle image_bytes prompt (t1 ++ t2)
    else
      openrouterLastResort A orOracle image_bytes prompt t1
  | none => openrouterLastResort A orOracle image_bytes prompt t1

/-- `analyze_with_auto_fallback`: resolve `(image, prompt, model_id)` to a
`(response_text, provider_label)` pair.  Unknown ids raise
`ValueError("Unknown model: ...")`.  For a GEMINI_DIRECT model: try the
primary `api_model` (`model_info.get('api_model', 'gemini-2.5-flash')`); on
`QuotaExceededError` run the quota-fallback phase; any non-quota exception
from the primary propagates unchanged.  Any other provider calls OpenRouter
exactly once with the model's catalogue name as the provenance label. -/
def analyze_with_auto_fallback (A : Analyzer) (gemOracle : String → RawResult)
    (orOracle : String → ORRaw) (image_bytes : Option Bytes) (prompt : String)
    (model_id : String) :
    Except Err (String × String) × List Attempt :=
  match MODELS.lookup model_id with
  | none => (.error (.valueError ("Unknown model: " ++ model_id)), [])
  | some model_info =>
    if model_info.provider = "GEMINI_DIRECT" then
      match analyze_with_gemini_direct A gemOracle image_bytes prompt
          (model_info.api_model.getD "gemini-2.5-flash") with
      | (.ok response, t1) =>
        (.ok (response, "Google Studio " ++ model_info.api_model.getD "gemini-2.5-flash"), t1)
      | (.error (.quotaExceeded _), t1) =>
        quotaFallbackPhase A gemOracle orOracle image_bytes prompt model_info t1
      | (.error e, t1) => (.error e, t1)
    else
      match analyze_with_openrouter orOracle image_bytes prompt model_id with
      | (.ok response, t) => (.ok (response, model_info.name), t)
      | (.error e, t) => (.error e, t)

/-- Stage 1 prompt of the strict 5-stage protocol. -/
def stage_1_identification_prompt : String :=
"STAGE 1 — DOCUMENT IDENTIFICATION

Analyze this CAD drawing and provide ONLY these 4 items (5-6 bullets MAX):
1. Drawing type (e.g., Block Diagram, Wiring Diagram, Floor Plan, Schematic)
2. Discipline (e.g., CCTV, Electrical, Telecom, Mechanical, Architectural)
3. 2D or 3D representation
4. Diagram intent (logical / physical / schematic / installation)

FORMAT: Use bullet points. Be concise. No explanations."

/-- Stage 2 prompt of the strict 5-stage protocol. -/
def stage_2_system_overview_prompt : String :=
"STAGE 2 — SYSTEM OVERVIEW

Analyze the systems and connections. Provide ONLY:
1. What systems are present (list major systems only)
2. How they are logically connected (high-level flow)
3. Data/signal flow direction (if applicable)
4. Central nodes or hubs (if any)

FORMAT: Short paragraphs or bullets. NO repetition of Stage 1 info."

/-- Stage 3 prompt of the strict 5-stage protocol. -/
def stage_3_components_prompt : String :=
"STAGE 3 — COMPONENT BREAKDOWN

List major components GROUPED BY SYSTEM. Do NOT:
- List every single component exhaustively
- Invent specifications not visible in the drawing
- Repeat information from previous stages

FORMAT: Grouped bullets only. Example:
- System A: Component 1, Component 2
- System B: Component 3, Component 4"

/-- Stage 4 prompt of the strict 5-stage protocol. -/
def stage_4_technical_prompt : String :=
"STAGE 4 — TECHNICAL CHARACTERISTICS

Provide ONLY these technical facts (declarative statements):
1. Complexity level (Low / Moderate / High) - based on density and interconnections
2. Scale indication (To-scale / Not-to-scale / Unknown)
3. Dimensions present? (Yes/No - do NOT invent values)
4. Tolerances present? (Yes/No)
5. Standards referenced? (Yes/No - if yes, which ones are VISIBLE)
6. Diagram type implications (e.g., \"Logical diagram - not for installation\")

If data is NOT present, state \"Not present in drawing\" ONCE."

/-- Stage 5 prompt of the strict 5-stage protocol. -/
def stage_5_quality_prompt : String :=
"STAGE 5 — QUALITY & USABILITY ASSESSMENT

Assess practical usability:
1. Readability (Good / Fair / Poor - based on clarity, legibility)
2. Layout efficiency (Logical flow / Cluttered / Well-organized)
3. Information density (Appropriate / Too dense / Too sparse)
4. Practical usability for engineering tasks

Then provide:
- 2-3 CONCRETE issues (specific problems)
- 2-3 ACTIONABLE recommendations (specific improvements)

NO vague statements. Be specific."

/-- The `stages` dict of `comprehensive_analysis`, in insertion (iteration)
order: stage name paired with its fixed prompt. -/
def stages : List (String × String) := [
  ("stage_1_identification", stage_1_identification_prompt),
  ("stage_2_system_overview", stage_2_system_overview_prompt),
  ("stage_3_components", stage_3_components_prompt),
  ("stage_4_technical", stage_4_technical_prompt),
  ("stage_5_quality", stage_5_quality_prompt)]

/-- The return dict of `comprehensive_analysis`: fixed provenance fields
plus the per-stage responses (`**results`), in stage order. -/
structure AnalysisResult where
  model_used : String
  model_id : String
  provider_used : Option String
  analysis_complete : Bool
  stage_results : List (String × String)
deriving Repr, DecidableEq

/-- Python truthiness of the `provider_used` variable
(`if not provider_used:` — `None` and `""` are falsy). -/
def pyFalsyOptStr : Option String → Bool
  | none => true
  | some s => s = ""

/-- The stage loop of `comprehensive_analysis`: run the remaining stages in
order through `analyze_with_auto_fallback`, accumulating `results` and
setting `provider_used` at the first stage whose label is truthy; the first
stage whose resolution raises aborts the loop with that exception (partial
`results` are discarded).  The index `i` lets the oracles model a backend
whose behaviour differs from call to call. -/
def runStages (A : Analyzer) (gemOracle : Nat → String → RawResult)
    (orOracle : Nat → String → ORRaw) (image_bytes : Bytes) (model_id : String) :
    List (String × String) → Nat → List (String × String) → Option String →
    List Attempt → Except Err (List (String × String) × Option String) × List Attempt
  | [], _, acc, prov, tr => (.ok (acc, prov), tr)
  | (stage_name, prompt) :: rest, i, acc, prov, tr =>
    match analyze_with_auto_fallback A (gemOracle i) (orOracle i)
        (some image_bytes) prompt model_id with
    | (.ok (response, used_provider), t) =>
      runStages A gemOracle orOracle image_bytes model_id rest (i + 1)
        (acc ++ [(stage_name, response)])
        (if pyFalsyOptStr prov then some used_provider else prov) (tr ++ t)
    | (.error e, t) => (.error e, tr ++ t)

/-- `comprehensive_analysis`: check the PNG exists (its content is
`png_file`, `none` meaning the path does not exist), reject ids that are
unknown or lack the vision capability with
`ValueError("Model ... doesn't support vision")`, then run the five stages
sequentially and assemble the result dict with `analysis_complete = true`. -/
def comprehensive_analysis (A : Analyzer) (gemOracle : Nat → String → RawResult)
    (orOracle : Nat → String → ORRaw) (png_file : Option Bytes)
    (png_path : String) (model_id : String) :
    Except Err AnalysisResult × List Attempt :=
  match png_file with
  | none => (.error (.fileNotFound ("PNG not found: " ++ png_path)), [])
  | some image_bytes =>
    match MODELS.lookup model_id with
    | none =>
      (.error (.valueError ("Model " ++ model_id ++ " doesn't support vision")), [])
    | some model_info =>
      if model_info.capabilities.contains "vision" then
        match runStages A gemOracle orOracle image_bytes model_id stages 0 [] none [] with
        | (.ok (results, provider_used), tr) =>
          (.ok { model_used := model_info.name, model_id := model_id,
                 provider_used := provider_used, analysis_complete := true,
                 stage_results := results }, tr)
        | (.error e, tr) => (.error e, tr)
      else
        (.error (.valueError ("Model " ++ model_id ++ " doesn't support vision")), [])

/-!
Embedding of the CAD-analysis indexing hand-off in
`backend/app/services/rag_service.py`.  The vector store and the sentence
splitter are external collaborators, abstracted as oracles: `nodeCount`
gives the number of nodes the splitter produces and `store` the behaviour of
`VectorStoreIndex` (`none` = success, `some msg` = an exception with that
message).
-/

/-- One LlamaIndex `Document`: text plus string metadata. -/
structure Document where
  text : String
  metadata : List (String × String)
deriving Repr, DecidableEq

/-- Python dict assignment `m[k] = v`: overwrite in place when the key
exists, else append. -/
def setMeta (m : List (String × String)) (k v : String) : List (String × String) :=
  if (m.lookup k).isSome then
    m.map (fun p => if p.1 = k then (k, v) else p)
  else
    m ++ [(k, v)]

/-- The metadata stamping loop of `index_documents`: every document gets
`metadata["doc_id"] = doc_id` before anything is handed to the splitter and
the vector store. -/
def stampedDocuments (documents : List Document) (doc_id : String) : List Document :=
  documents.map (fun d => { d with metadata := setMeta d.metadata "doc_id" doc_id })

/-- `index_documents`: stamp `doc_id` onto every document, split into nodes
(count given by `nodeCount`), raise `ValueError` when no nodes were
produced, then build the vector index (`store`); on success return `True`.
The `except` clause logs and re-raises, so every failure propagates as an
exception. -/
def index_documents (nodeCount : List Document → Nat)
    (store : List Document → Option String)
    (documents : List Document) (doc_id : String) : Except Err Bool :=
  if nodeCount (stampedDocuments documents doc_id) = 0 then
    .error (.valueError "Failed to create nodes from documents")
  else
    match store (stampedDocuments documents doc_id) with
    | none => .ok true
    | some msg => .error (.exc msg)

/-- Renders a Python value in an f-string: `None` prints as "None". -/
def pyStr : Option String → String
  | none => "None"
  | some s => s

/-- The per-stage `Document`s plus the summary `Document` assembled by
`index_cad_analysis` (one per stage key present in `analysis_results`, in
stage order, then the complete-analysis summary). -/
def cad_stage_documents (doc_id : String) (analysis_results : AnalysisResult)
    (doc_name : String) : List Document :=
  let mu := analysis_results.model_used
  let r := analysis_results.stage_results
  let docs1 := match r.lookup "stage_1_identification" with
    | some t =>
      [{ text := "CAD DOCUMENT IDENTIFICATION - " ++ doc_name ++ "\n\n" ++ t,
         metadata := [("doc_id", doc_id), ("file_name", doc_name),
                      ("file_type", "cad"), ("source_type", "cad_analysis"),
                      ("analysis_stage", "identification"), ("model_used", mu)] }]
    | none => []
  let docs2 := match r.lookup "stage_2_system_overview" with
    | some t =>
      [{ text := "CAD SYSTEM OVERVIEW - " ++ doc_name ++ "\n\n" ++ t,
         metadata := [("doc_id", doc_id), ("file_name", doc_name),
                      ("file_type", "cad"), ("source_type", "cad_analysis"),
                      ("analysis_stage", "system_overview"), ("model_used", mu)] }]
    | none => []
  let docs3 := match r.lookup "stage_3_components" with
    | some t =>
      [{ text := "CAD COMPONENT BREAKDOWN - " ++ doc_name ++ "\n\n" ++ t,
         metadata := [("doc_id", doc_id), ("file_name", doc_name),
                      ("file_type", "cad"), ("source_type", "cad_analysis"),
                      ("analysis_stage", "components"), ("model_used", mu)] }]
    | none => []
  let docs4 := match r.lookup "stage_4_technical" with
    | some t =>
      [{ text := "CAD TECHNICAL CHARACTERISTICS - " ++ doc_name ++ "\n\n" ++ t,
         metadata := [("doc_id", doc_id), ("file_name", doc_name),
                      ("file_type", "cad"), ("source_type", "cad_analysis"),
                      ("analysis_stage", "technical"), ("model_used", mu)] }]
    | none => []
  let docs5 := match r.lookup "stage_5_quality" with
    | some t =>
      [{ text := "CAD QUALITY & USABILITY - " ++ doc_name ++ "\n\n" ++ t,
         metadata := [("doc_id", doc_id), ("file_name", doc_name),
                      ("file_type", "cad"), ("source_type", "cad_analysis"),
                      ("analysis_stage", "quality"), ("model_used", mu)] }]
    | none => []
  let summary_text :=
    "CAD COMPLETE ANALYSIS - " ++ doc_name ++ "\n\nModel Used: " ++ mu ++
    "\nProvider: " ++ pyStr analysis_results.provider_used ++
    "\n\nIDENTIFICATION:\n" ++ ((r.lookup "stage_1_identification").getD "N/A") ++
    "\n\nSYSTEM OVERVIEW:\n" ++ ((r.lookup "stage_2_system_overview").getD "N/A") ++
    "\n\nCOMPONENTS:\n" ++ ((r.lookup "stage_3_components").getD "N/A") ++
    "\n\nTECHNICAL:\n" ++ ((r.lookup "stage_4_technical").getD "N/A") ++
    "\n\nQUALITY:\n" ++ ((r.lookup "stage_5_quality").getD "N/A") ++ "\n"
  let doc_summary : Document :=
    { text := summary_text,
      metadata := [("doc_id", doc_id), ("file_name", doc_name),
                   ("file_type", "cad"), ("source_type", "cad_analysis_summary"),
                   ("analysis_stage", "complete"), ("model_used", mu)] }
  docs1 ++ docs2 ++ docs3 ++ docs4 ++ docs5 ++ [doc_summary]

/-- Test fixture: an analyzer whose constructor initialised both Google
Studio Gemini models and that holds an OpenRouter key. -/
def testAnalyzer : Analyzer :=
  { gemini_models := ["gemini-2.5-flash", "gemini-2.5-flash-lite"],
    openrouter_api_key := some "sk-or-test" }

/-- Test fixture: an analyzer with both Gemini models but no OpenRouter key. -/
def testAnalyzerNoKey : Analyzer :=
  { gemini_models := ["gemini-2.5-flash", "gemini-2.5-flash-lite"],
    openrouter_api_key := none }

/-- Test fixture: every Gemini call succeeds. -/
def gemOk : String → RawResult := fun _ => .ok "stage-text"

/-- Test fixture: every Gemini call hits the rate limit. -/
def gemQuota : String → RawResult := fun _ => .raiseExc "429 Resource exhausted"

/-- Test fixture: every Gemini call fails with a transport-level error. -/
def gemTransport : String → RawResult := fun _ => .raiseExc "connection reset by peer"

/-- Test fixture: the primary model hits the rate limit, the fallback model
fails with a transport-level error. -/
def gemQuotaThenTransport : String → RawResult := fun m =>
  if m = "gemini-2.5-flash" then .raiseExc "429 rate limit"
  else .raiseExc "connection reset by peer"

/-- Test fixture: every OpenRouter call succeeds. -/
def orOk : String → ORRaw := fun _ => .ok "gateway-text"

/-- Test fixture: every OpenRouter call fails. -/
def orFail : String → ORRaw := fun _ => .raiseExc "boom"

/-- Test fixture: per-stage Gemini oracle, every call succeeds. -/
def gemOkN : Nat → String → RawResult := fun _ => gemOk

/-- Test fixture: per-stage OpenRouter oracle, every call succeeds. -/
def orOkN : Nat → String → ORRaw := fun _ => orOk

/-- Fixture: the result record of a fully successful comprehensive run in
which every stage resolves on the primary Gemini model. -/
def compOkResult : AnalysisResult :=
  { model_used := "Gemini 2.5 Flash", model_id := "gemini-2.5-flash",
    provider_used := some "Google Studio gemini-2.5-flash",
    analysis_complete := true,
    stage_results := [("stage_1_identification", "stage-text"),
                      ("stage_2_system_overview", "stage-text"),
                      ("stage_3_components", "stage-text"),
                      ("stage_4_technical", "stage-text"),
                      ("stage_5_quality", "stage-text")] }

/-- Fixture: the attempt trace of that fully successful run — one primary
Gemini call per stage. -/
def compOkTrace : List Attempt :=
  [.gemini "gemini-2.5-flash", .gemini "gemini-2.5-flash",
   .gemini "gemini-2.5-flash", .gemini "gemini-2.5-flash",
   .gemini "gemini-2.5-flash"]

/-- `index_cad_analysis`: assemble the stage documents and the summary, then
index them under `f"{doc_id}_cad_analysis"`.  The whole body sits in a
catch-all `try`/`except` that turns any exception into the return value
`False`, so the function always returns a boolean. -/
def index_cad_analysis (nodeCount : List Document → Nat)
    (store : List Document → Option String) (doc_id : String)
    (analysis_results : AnalysisResult) (doc_name : String) : Bool :=
  let stage_documents := cad_stage_documents doc_id analysis_results doc_name
  match index_documents nodeCount store stage_documents (doc_id ++ "_cad_analysis") with
  | .ok success => success
  | .error _ => false

/-!  Helper lemmas about the cascade, shared by the claim theorems. -/

theorem cascade_primary_nonquota (A : Analyzer) (gemOracle : String → RawResult)
    (orOracle : String → ORRaw) (image_bytes : Option Bytes)
    (prompt model_id : String) (model_info : ModelInfo) (api_model msg : String)
    (hm : MODELS.lookup model_id = some model_info)
    (hp : model_info.provider = "GEMINI_DIRECT")
    (ha : model_info.api_model.getD "gemini-2.5-flash" = api_model)
    (hinit : A.gemini_models.contains api_model = true)
    (hraise : gemOracle api_model = .raiseExc msg)
    (hq : quotaMsg msg = false) :
    analyze_with_auto_fallback A gemOracle orOracle image_bytes prompt model_id =
      (.error (.exc ("Gemini API error: " ++ msg)), [.gemini api_model]) := by
  simp only [analyze_with_auto_fallback, hm, hp, ha, analyze_with_gemini_direct,
    hinit, hraise, hq, if_true, if_false, Bool.false_eq_true, ite_false, ite_true]

theorem cascade_quota_then_fallback_error (A : Analyzer)
    (gemOracle : String → RawResult) (orOracle : String → ORRaw)
    (image_bytes : Option Bytes) (prompt model_id : String)
    (model_info : ModelInfo) (api_model fallback_model m1 m2 : String)
    (hm : MODELS.lookup model_id = some model_info)
    (hp : model_info.provider = "GEMINI_DIRECT")
    (ha : model_info.api_model.getD "gemini-2.5-flash" = api_model)
    (hinit : A.gemini_models.contains api_model = true)
    (h1 : gemOracle api_model = .raiseExc m1) (hq1 : quotaMsg m1 = true)
    (hfb : model_info.fallback_model = some fallback_model)
    (hfbt : pyTruthyStr fallback_model = true)
    (hfbinit : A.gemini_models.contains fallback_model = true)
    (h2 : gemOracle fallback_model = .raiseExc m2) :
    analyze_with_auto_fallback A gemOracle orOracle image_bytes prompt model_id =
      openrouterLastResort A orOracle image_bytes prompt
        [.gemini api_model, .gemini fallback_model] := by
  cases hq2 : quotaMsg m2 <;>
    simp only [analyze_with_auto_fallback, quotaFallbackPhase, hm, hp, ha,
      analyze_with_gemini_direct, hinit, h1, hq1, hfb, hfbt, hfbinit, h2, hq2,
      Bool.and_self, if_true, if_false, Bool.false_eq_true, ite_false, ite_true,
      List.singleton_append, List.cons_append, List.nil_append]

theorem lastResort_gateway_ok (A : Analyzer) (orOracle : String → ORRaw)
    (image_bytes : Option Bytes) (prompt : String) (acc : List Attempt)
    (gwText : String) (hkey : A.hasORKey = true)
    (hgw : orOracle "google/gemini-2.0-flash-exp:free" = .ok gwText) :
    openrouterLastResort A orOracle image_bytes prompt acc =
      (.ok (gwText, "OpenRouter Gemini (fallback)"),
       acc ++ [.openrouter "google/gemini-2.0-flash-exp:free"]) := by
  simp only [openrouterLastResort, hkey, analyze_with_openrouter, hgw, if_true]

theorem lastResort_gateway_raise (A : Analyzer) (orOracle : String → ORRaw)
    (image_bytes : Option Bytes) (prompt : String) (acc : List Attempt)
    (m3 : String) (hkey : A.hasORKey = true)
    (hgw : orOracle "google/gemini-2.0-flash-exp:free" = .raiseExc m3) :
    openrouterLastResort A orOracle image_bytes prompt acc =
      (.error (.exc "All Gemini sources exhausted (quota exceeded)"),
       acc ++ [.openrouter "google/gemini-2.0-flash-exp:free"]) := by
  simp only [openrouterLastResort, hkey, analyze_with_openrouter, hgw, if_true]

theorem lastResort_no_key (A : Analyzer) (orOracle : String → ORRaw)
    (image_bytes : Option Bytes) (prompt : String) (acc : List Attempt)
    (hkey : A.hasORKey = false) :
    openrouterLastResort A orOracle image_bytes prompt acc =
      (.error (.exc "All Gemini sources exhausted (quota exceeded)"), acc) := by
  simp only [openrouterLastResort, hkey, Bool.false_eq_true, ite_false, if_false]

/-- C1: for a registry model of the GEMINI_DIRECT family with an initialised
primary and declared, initialised same-family fallback, when the primary
fails with Quota, the fallback also fails with Quota, and the gateway
fallback (available because an OpenRouter key is configured) succeeds,
`analyze_with_auto_fallback` makes exactly 3 provider attempts in the order
primary, same-family fallback, gateway, and returns the gateway's response
text paired with the provenance label `"OpenRouter Gemini (fallback)"`,
which marks it as a fallback. -/
theorem C1_cascade_order_three_attempts (A : Analyzer)
    (gemOracle : String → RawResult) (orOracle : String → ORRaw)
    (image_bytes : Option Bytes) (prompt model_id : String)
    (model_info : ModelInfo) (api_model fallback_model m1 m2 gwText : String)
    (hm : MODELS.lookup model_id = some model_info)
    (hp : model_info.provider = "GEMINI_DIRECT")
    (ha : model_info.api_model.getD "gemini-2.5-flash" = api_model)
    (hinit : A.gemini_models.contains api_model = true)
    (h1 : gemOracle api_model = .raiseExc m1) (hq1 : quotaMsg m1 = true)
    (hfb : model_info.fallback_model = some fallback_model)
    (hfbt : pyTruthyStr fallback_model = true)
    (hfbinit : A.gemini_models.contains fallback_model = true)
    (h2 : gemOracle fallback_model = .raiseExc m2) (hq2 : quotaMsg m2 = true)
    (hkey : A.hasORKey = true)
    (hgw : orOracle "google/gemini-2.0-flash-exp:free" = .ok gwText) :
    analyze_with_auto_fallback A gemOracle orOracle image_bytes prompt model_id =
      (.ok (gwText, "OpenRouter Gemini (fallback)"),
       [.gemini api_model, .gemini fallback_model,
        .openrouter "google/gemini-2.0-flash-exp:free"]) := by
  rw [cascade_quota_then_fallback_error A gemOracle orOracle image_bytes prompt
        model_id model_info api_model fallback_model m1 m2 hm hp ha hinit h1 hq1
        hfb hfbt hfbinit h2,
      lastResort_gateway_ok A orOracle image_bytes prompt _ gwText hkey hgw]
  rfl

/-- C1 witness: the concrete cascade run primary=Quota, fallback=Quota,
gateway=Success makes exactly the three attempts in order and returns the
gateway text with the fallback label. -/
theorem C1_witness :
    analyze_with_auto_fallback testAnalyzer gemQuota orOk none "p" "gemini-2.5-flash" =
      (.ok ("gateway-text", "OpenRouter Gemini (fallback)"),
       [.gemini "gemini-2.5-flash", .gemini "gemini-2.5-flash-lite",
        .openrouter "google/gemini-2.0-flash-exp:free"]) :=
  C1_cascade_order_three_attempts testAnalyzer gemQuota orOk none "p"
    "gemini-2.5-flash"
    { name := "Gemini 2.5 Flash", provider := "GEMINI_DIRECT",
      fallback_provider := some "GEMINI_DIRECT",
      fallback_model := some "gemini-2.5-flash-lite",
      capabilities := ["vision", "fast"], context_window := "1M tokens",
      free := true, notes := "Google AI Studio (recommended)",
      api_model := some "gemini-2.5-flash" }
    "gemini-2.5-flash" "gemini-2.5-flash-lite" "429 Resource exhausted"
    "429 Resource exhausted" "gateway-text"
    rfl rfl rfl rfl rfl (by decide) rfl rfl rfl rfl (by decide) rfl rfl

/-- C2: when the primary provider call of a GEMINI_DIRECT model fails with a
non-quota (Transport) failure, `analyze_with_auto_fallback` makes exactly 1
provider call, surfaces that failure verbatim as the rewrapped
`Exception("Gemini API error: ...")`, and attempts neither the fallback
model nor the gateway. -/
theorem C2_primary_transport_short_circuit (A : Analyzer)
    (gemOracle : String → RawResult) (orOracle : String → ORRaw)
    (image_bytes : Option Bytes) (prompt model_id : String)
    (model_info : ModelInfo) (api_model msg : String)
    (hm : MODELS.lookup model_id = some model_info)
    (hp : model_info.provider = "GEMINI_DIRECT")
    (ha : model_info.api_model.getD "gemini-2.5-flash" = api_model)
    (hinit : A.gemini_models.contains api_model = true)
    (hraise : gemOracle api_model = .raiseExc msg)
    (hq : quotaMsg msg = false) :
    analyze_with_auto_fallback A gemOracle orOracle image_bytes prompt model_id =
      (.error (.exc ("Gemini API error: " ++ msg)), [.gemini api_model]) :=
  cascade_primary_nonquota A gemOracle orOracle image_bytes prompt model_id
    model_info api_model msg hm hp ha hinit hraise hq

/-- C2 witness: the concrete run primary=Transport makes exactly one call
and surfaces the transport failure. -/
theorem C2_witness :
    analyze_with_auto_fallback testAnalyzer gemTransport orOk none "p" "gemini-2.5-flash" =
      (.error (.exc ("Gemini API error: " ++ "connection reset by peer")),
       [.gemini "gemini-2.5-flash"]) :=
  C2_primary_transport_short_circuit testAnalyzer gemTransport orOk none "p"
    "gemini-2.5-flash"
    { name := "Gemini 2.5 Flash", provider := "GEMINI_DIRECT",
      fallback_provider := some "GEMINI_DIRECT",
      fallback_model := some "gemini-2.5-flash-lite",
      capabilities := ["vision", "fast"], context_window := "1M tokens",
      free := true, notes := "Google AI Studio (recommended)",
      api_model := some "gemini-2.5-flash" }
    "gemini-2.5-flash" "connection reset by peer"
    rfl rfl rfl rfl rfl (by decide)

/-- C3 counterexample: a concrete run in which the same-family fallback step
fails with a non-quota (Transport) failure — `"connection reset by peer"`,
which the classifier marks non-quota — yet the resolution is NOT aborted and
the failure is NOT surfaced: the gateway step is still attempted and its
success is returned.  This falsifies the claim that a Transport failure at
every cascade step aborts immediately and is surfaced verbatim. -/
theorem C3_counterexample :
    gemQuotaThenTransport "gemini-2.5-flash-lite" = .raiseExc "connection reset by peer" ∧
    quotaMsg "connection reset by peer" = false ∧
    analyze_with_auto_fallback testAnalyzer gemQuotaThenTransport orOk none "p"
        "gemini-2.5-flash" =
      (.ok ("gateway-text", "OpenRouter Gemini (fallback)"),
       [.gemini "gemini-2.5-flash", .gemini "gemini-2.5-flash-lite",
        .openrouter "google/gemini-2.0-flash-exp:free"]) :=
  ⟨rfl, by decide, rfl⟩

/-- C3 amended: only a Transport failure at the primary step aborts the
resolution and propagates verbatim.  After a primary Quota failure, a
non-quota (Transport) failure at the same-family fallback step is absorbed:
the gateway step is still attempted when an OpenRouter key is configured
(and its success is returned); a gateway-step failure is likewise absorbed;
and when the cascade then ends without success, the resolution fails with
the generic `"All Gemini sources exhausted (quota exceeded)"` error instead
of the Transport failure. -/
theorem C3_amended_transport_absorbed_after_primary (A : Analyzer)
    (gemOracle : String → RawResult) (orOracle : String → ORRaw)
    (image_bytes : Option Bytes) (prompt model_id : String)
    (model_info : ModelInfo) (api_model fallback_model m1 m2 : String)
    (hm : MODELS.lookup model_id = some model_info)
    (hp : model_info.provider = "GEMINI_DIRECT")
    (ha : model_info.api_model.getD "gemini-2.5-flash" = api_model)
    (hinit : A.gemini_models.contains api_model = true)
    (h1 : gemOracle api_model = .raiseExc m1) (hq1 : quotaMsg m1 = true)
    (hfb : model_info.fallback_model = some fallback_model)
    (hfbt : pyTruthyStr fallback_model = true)
    (hfbinit : A.gemini_models.contains fallback_model = true)
    (h2 : gemOracle fallback_model = .raiseExc m2) (hq2 : quotaMsg m2 = false) :
    (∀ gemOracle2 m0, gemOracle2 api_model = .raiseExc m0 → quotaMsg m0 = false →
       analyze_with_auto_fallback A gemOracle2 orOracle image_bytes prompt model_id =
         (.error (.exc ("Gemini API error: " ++ m0)), [.gemini api_model])) ∧
    (∀ gwText, A.hasORKey = true →
       orOracle "google/gemini-2.0-flash-exp:free" = .ok gwText →
       analyze_with_auto_fallback A gemOracle orOracle image_bytes prompt model_id =
         (.ok (gwText, "OpenRouter Gemini (fallback)"),
          [.gemini api_model, .gemini fallback_model,
           .openrouter "google/gemini-2.0-flash-exp:free"])) ∧
    (∀ m3, A.hasORKey = true →
       orOracle "google/gemini-2.0-flash-exp:free" = .raiseExc m3 →
       analyze_with_auto_fallback A gemOracle orOracle image_bytes prompt model_id =
         (.error (.exc "All Gemini sources exhausted (quota exceeded)"),
          [.gemini api_model, .gemini fallback_model,
           .openrouter "google/gemini-2.0-flash-exp:free"])) ∧
    (A.hasORKey = false →
       analyze_with_auto_fallback A gemOracle orOracle image_bytes prompt model_id =
         (.error (.exc "All Gemini sources exhausted (quota exceeded)"),
          [.gemini api_model, .gemini fallback_model])) := by
  refine ⟨?_, ?_, ?_, ?_⟩
  · intro gemOracle2 m0 h0 hq0
    exact cascade_primary_nonquota A gemOracle2 orOracle image_bytes prompt
      model_id model_info api_model m0 hm hp ha hinit h0 hq0
  · intro gwText hkey hgw
    rw [cascade_quota_then_fallback_error A gemOracle orOracle image_bytes prompt
          model_id model_info api_model fallback_model m1 m2 hm hp ha hinit h1 hq1
          hfb hfbt hfbinit h2,
        lastResort_gateway_ok A orOracle image_bytes prompt _ gwText hkey hgw]
    rfl
  · intro m3 hkey hgw
    rw [cascade_quota_then_fallback_error A gemOracle orOracle image_bytes prompt
          model_id model_info api_model fallback_model m1 m2 hm hp ha hinit h1 hq1
          hfb hfbt hfbinit h2,
        lastResort_gateway_raise A orOracle image_bytes prompt _ m3 hkey hgw]
    rfl
  · intro hkey
    rw [cascade_quota_then_fallback_error A gemOracle orOracle image_bytes prompt
          model_id model_info api_model fallback_model m1 m2 hm hp ha hinit h1 hq1
          hfb hfbt hfbinit h2,
        lastResort_no_key A orOracle image_bytes prompt _ hkey]

/-- C3 amended witness: the amended statement instantiated at the concrete
primary=Quota, fallback=Transport, gateway-available scenario, from which
the gateway-success consequence is extracted at the concrete gateway run. -/
theorem C3_amended_witness :
    analyze_with_auto_fallback testAnalyzer gemQuotaThenTransport orOk none "p"
        "gemini-2.5-flash" =
      (.ok ("gateway-text", "OpenRouter Gemini (fallback)"),
       [.gemini "gemini-2.5-flash", .gemini "gemini-2.5-flash-lite",
        .openrouter "google/gemini-2.0-flash-exp:free"]) :=
  (C3_amended_transport_absorbed_after_primary testAnalyzer gemQuotaThenTransport
    orOk none "p" "gemini-2.5-flash"
    { name := "Gemini 2.5 Flash", provider := "GEMINI_DIRECT",
      fallback_provider := some "GEMINI_DIRECT",
      fallback_model := some "gemini-2.5-flash-lite",
      capabilities := ["vision", "fast"], context_window := "1M tokens",
      free := true, notes := "Google AI Studio (recommended)",
      api_model := some "gemini-2.5-flash" }
    "gemini-2.5-flash" "gemini-2.5-flash-lite" "429 rate limit"
    "connection reset by peer"
    rfl rfl rfl rfl rfl (by decide) rfl rfl rfl rfl (by decide)).2.1
    "gateway-text" rfl rfl

/-- C4 counterexample: in the concrete exhaustion run (primary=Quota,
fallback=Quota, no OpenRouter key) the raised error is the fixed string
`"All Gemini sources exhausted (quota exceeded)"`, which contains neither
the requested `model_id` `"gemini-2.5-flash"` nor the attempt count `"2"` —
so the exhaustion error does not carry the model id and the number of
attempts, falsifying that part of the claim (while 2 calls are indeed
made). -/
theorem C4_counterexample :
    analyze_with_auto_fallback testAnalyzerNoKey gemQuota orOk none "p"
        "gemini-2.5-flash" =
      (.error (.exc "All Gemini sources exhausted (quota exceeded)"),
       [.gemini "gemini-2.5-flash", .gemini "gemini-2.5-flash-lite"]) ∧
    strContains "All Gemini sources exhausted (quota exceeded)" "gemini-2.5-flash" = false ∧
    strContains "All Gemini sources exhausted (quota exceeded)" "2" = false :=
  ⟨rfl, by decide, by decide⟩

/-- C4 amended: when the primary fails with Quota, the same-family fallback
also fails with Quota, and no gateway fallback is configured (falsy
OpenRouter key), `analyze_with_auto_fallback` fails after exactly 2 provider
calls with the fixed error `"All Gemini sources exhausted (quota exceeded)"`
— an exhaustion error that omits the transient quota text but carries
neither the requested model_id nor the number of attempts. -/
theorem C4_amended_exhaustion_after_two_calls (A : Analyzer)
    (gemOracle : String → RawResult) (orOracle : String → ORRaw)
    (image_bytes : Option Bytes) (prompt model_id : String)
    (model_info : ModelInfo) (api_model fallback_model m1 m2 : String)
    (hm : MODELS.lookup model_id = some model_info)
    (hp : model_info.provider = "GEMINI_DIRECT")
    (ha : model_info.api_model.getD "gemini-2.5-flash" = api_model)
    (hinit : A.gemini_models.contains api_model = true)
    (h1 : gemOracle api_model = .raiseExc m1) (hq1 : quotaMsg m1 = true)
    (hfb : model_info.fallback_model = some fallback_model)
    (hfbt : pyTruthyStr fallback_model = true)
    (hfbinit : A.gemini_models.contains fallback_model = true)
    (h2 : gemOracle fallback_model = .raiseExc m2) (hq2 : quotaMsg m2 = true)
    (hkey : A.hasORKey = false) :
    analyze_with_auto_fallback A gemOracle orOracle image_bytes prompt model_id =
      (.error (.exc "All Gemini sources exhausted (quota exceeded)"),
       [.gemini api_model, .gemini fallback_model]) := by
  rw [cascade_quota_then_fallback_error A gemOracle orOracle image_bytes prompt
        model_id model_info api_model fallback_model m1 m2 hm hp ha hinit h1 hq1
        hfb hfbt hfbinit h2,
      lastResort_no_key A orOracle image_bytes prompt _ hkey]

/-- C4 amended witness: the amended statement at the concrete exhaustion
run. -/
theorem C4_amended_witness :
    analyze_with_auto_fallback testAnalyzerNoKey gemQuota orOk none "p"
        "gemini-2.5-flash" =
      (.error (.exc "All Gemini sources exhausted (quota exceeded)"),
       [.gemini "gemini-2.5-flash", .gemini "gemini-2.5-flash-lite"]) :=
  C4_amended_exhaustion_after_two_calls testAnalyzerNoKey gemQuota orOk none "p"
    "gemini-2.5-flash"
    { name := "Gemini 2.5 Flash", provider := "GEMINI_DIRECT",
      fallback_provider := some "GEMINI_DIRECT",
      fallback_model := some "gemini-2.5-flash-lite",
      capabilities := ["vision", "fast"], context_window := "1M tokens",
      free := true, notes := "Google AI Studio (recommended)",
      api_model := some "gemini-2.5-flash" }
    "gemini-2.5-flash" "gemini-2.5-flash-lite" "429 Resource exhausted"
    "429 Resource exhausted"
    rfl rfl rfl rfl rfl (by decide) rfl rfl rfl rfl (by decide) rfl

/-- C7 counterexample: for the unknown id `"no-such-model"`,
`analyze_with_auto_fallback` does raise the distinct
`ValueError("Unknown model: ...")` with zero provider calls, but
`comprehensive_analysis` raises `ValueError("Model ... doesn't support
vision")` — the very same error shape it raises for a known model that
merely lacks the vision capability — and not the distinct UnknownModel
error.  So the unknown-model error of `comprehensive_analysis` is not
distinguishable from its UnsupportedCapability error, falsifying the claim
for that entry point. -/
theorem C7_counterexample :
    analyze_with_auto_fallback testAnalyzer gemOk orOk none "p" "no-such-model" =
      (.error (.valueError "Unknown model: no-such-model"), []) ∧
    comprehensive_analysis testAnalyzer gemOkN orOkN (some []) "d.png" "no-such-model" =
      (.error (.valueError "Model no-such-model doesn't support vision"), []) ∧
    comprehensive_analysis testAnalyzer gemOkN orOkN (some []) "d.png"
        "meta-llama/llama-3.3-70b-instruct:free" =
      (.error (.valueError
        "Model meta-llama/llama-3.3-70b-instruct:free doesn't support vision"), []) ∧
    "Model no-such-model doesn't support vision" ≠ "Unknown model: no-such-model" :=
  ⟨rfl, rfl, rfl, by decide⟩

/-- C7 amended: for every model_id that is not a key of the registry, both
entry points fail before any provider call is made (zero attempts, so the
error never enters the fallback cascade): `analyze_with_auto_fallback` with
the distinct `ValueError("Unknown model: <id>")`, but `comprehensive_analysis`
with the same `ValueError("Model <id> doesn't support vision")` it uses for
UnsupportedCapability, so only the former is distinguishable from the
capability error. -/
theorem C7_amended_unknown_model_rejected_before_calls (A : Analyzer)
    (gemOracle : String → RawResult) (orOracle : String → ORRaw)
    (gemOracleN : Nat → String → RawResult) (orOracleN : Nat → String → ORRaw)
    (image_bytes : Option Bytes) (png : Bytes) (prompt png_path model_id : String)
    (hm : MODELS.lookup model_id = none) :
    analyze_with_auto_fallback A gemOracle orOracle image_bytes prompt model_id =
      (.error (.valueError ("Unknown model: " ++ model_id)), []) ∧
    comprehensive_analysis A gemOracleN orOracleN (some png) png_path model_id =
      (.error (.valueError ("Model " ++ model_id ++ " doesn't support vision")), []) := by
  constructor
  · simp only [analyze_with_auto_fallback, hm]
  · simp only [comprehensive_analysis, hm]

/-- C7 amended witness: the amended statement at the concrete unknown id. -/
theorem C7_amended_witness :
    analyze_with_auto_fallback testAnalyzer gemOk orOk none "p" "no-such-model" =
      (.error (.valueError ("Unknown model: " ++ "no-such-model")), []) ∧
    comprehensive_analysis testAnalyzer gemOkN orOkN (some []) "d.png" "no-such-model" =
      (.error (.valueError ("Model " ++ "no-such-model" ++ " doesn't support vision")), []) :=
  C7_amended_unknown_model_rejected_before_calls testAnalyzer gemOk orOk gemOkN
    orOkN none [] "p" "d.png" "no-such-model" rfl

/-- C8: for every registry model whose capabilities do not include vision,
`comprehensive_analysis` on an existing image fails with the
UnsupportedCapability-style `ValueError("Model ... doesn't support vision")`
and makes zero provider calls. -/
theorem C8_no_vision_rejected_before_calls (A : Analyzer)
    (gemOracleN : Nat → String → RawResult) (orOracleN : Nat → String → ORRaw)
    (png : Bytes) (png_path model_id : String) (model_info : ModelInfo)
    (hm : MODELS.lookup model_id = some model_info)
    (hv : model_info.capabilities.contains "vision" = false) :
    comprehensive_analysis A gemOracleN orOracleN (some png) png_path model_id =
      (.error (.valueError ("Model " ++ model_id ++ " doesn't support vision")), []) := by
  simp only [comprehensive_analysis, hm, hv, Bool.false_eq_true, ite_false, if_false]

/-- C8 witness: the text-only model `meta-llama/llama-3.3-70b-instruct:free`
is rejected before any provider call. -/
theorem C8_witness :
    comprehensive_analysis testAnalyzer gemOkN orOkN (some []) "d.png"
        "meta-llama/llama-3.3-70b-instruct:free" =
      (.error (.valueError
        ("Model " ++ "meta-llama/llama-3.3-70b-instruct:free" ++ " doesn't support vision")), []) :=
  C8_no_vision_rejected_before_calls testAnalyzer gemOkN orOkN [] "d.png"
    "meta-llama/llama-3.3-70b-instruct:free"
    { name := "Llama 3.3 70B Instruct", provider := "OPENROUTER",
      capabilities := ["reasoning", "large_context"], context_window := "128K tokens",
      free := true, notes := "Best free text model" }
    rfl (by decide)

/-!  Helper lemmas about the stage pipeline, shared by the claim theorems. -/

theorem lookup_mem_models :
    ∀ (l : List (String × ModelInfo)) (k : String) (v : ModelInfo),
      l.lookup k = some v → (k, v) ∈ l := by
  intro l
  induction l with
  | nil => intro k v h; simp [List.lookup] at h
  | cons hd rest ih =>
    intro k v h
    obtain ⟨a, b⟩ := hd
    rw [List.lookup] at h
    split at h
    · next heq =>
      injection h with h'
      subst h'
      have hk : k = a := by
        have := of_decide_eq_true (by simpa [BEq.beq] using heq)
        exact this
      subst hk
      exact List.mem_cons_self _ _
    · exact List.mem_cons_of_mem _ (ih k v h)

theorem models_name_ne_empty : ∀ p ∈ MODELS, p.2.name ≠ "" := by decide

/-- A string with a non-empty left part of an append is non-empty. -/
theorem append_left_ne_empty (a b : String) (ha : a ≠ "") : a ++ b ≠ "" := by
  obtain ⟨la⟩ := a
  obtain ⟨lb⟩ := b
  cases la with
  | nil => exact absurd rfl ha
  | cons c cs =>
    intro h
    have hdata : c :: (cs ++ lb) = [] := congrArg String.data h
    simp at hdata

/-- A successful OpenRouter last resort always returns the label
`"OpenRouter Gemini (fallback)"`. -/
theorem lastResort_ok_label (A : Analyzer) (orOracle : String → ORRaw)
    (image_bytes : Option Bytes) (prompt : String) (acc : List Attempt)
    (text lab : String) (tr : List Attempt)
    (h : openrouterLastResort A orOracle image_bytes prompt acc =
        (.ok (text, lab), tr)) :
    lab = "OpenRouter Gemini (fallback)" := by
  unfold openrouterLastResort at h
  split at h
  · split at h
    · obtain ⟨⟨-, hlab⟩, -⟩ := by simpa using h
      exact hlab.symm
    · simp at h
  · simp at h

/-- A successful quota-fallback phase always returns a non-empty label. -/
theorem quotaFallbackPhase_ok_label (A : Analyzer)
    (gemOracle : String → RawResult) (orOracle : String → ORRaw)
    (image_bytes : Option Bytes) (prompt : String) (model_info : ModelInfo)
    (t1 : List Attempt) (text lab : String) (tr : List Attempt)
    (h : quotaFallbackPhase A gemOracle orOracle image_bytes prompt model_info t1 =
        (.ok (text, lab), tr)) :
    lab ≠ "" := by
  unfold quotaFallbackPhase at h
  split at h
  · next fallback_model hfb =>
    split at h
    · split at h
      · obtain ⟨⟨-, hlab⟩, -⟩ := by simpa using h
        rw [← hlab]
        exact append_left_ne_empty _ _ (append_left_ne_empty _ _ (by decide))
      · rw [lastResort_ok_label A orOracle image_bytes prompt _ text lab tr h]
        decide
    · rw [lastResort_ok_label A orOracle image_bytes prompt _ text lab tr h]
      decide
  · rw [lastResort_ok_label A orOracle image_bytes prompt _ text lab tr h]
    decide

/-- Every provenance label a successful resolution returns is a non-empty
string (needed because `comprehensive_analysis` guards the provenance write
with Python truthiness). -/
theorem auto_fallback_label_ne_empty (A : Analyzer)
    (gemOracle : String → RawResult) (orOracle : String → ORRaw)
    (image_bytes : Option Bytes) (prompt model_id : String)
    (text lab : String) (tr : List Attempt)
    (h : analyze_with_auto_fallback A gemOracle orOracle image_bytes prompt model_id =
        (.ok (text, lab), tr)) :
    lab ≠ "" := by
  unfold analyze_with_auto_fallback at h
  split at h
  · simp at h
  · next model_info hm =>
    split at h
    · split at h
      · obtain ⟨⟨-, hlab⟩, -⟩ := by simpa using h
        rw [← hlab]
        exact append_left_ne_empty _ _ (by decide)
      · exact quotaFallbackPhase_ok_label A gemOracle orOracle image_bytes prompt
          model_info _ text lab tr h
      · simp at h
    · split at h
      · obtain ⟨⟨-, hlab⟩, -⟩ := by simpa using h
        rw [← hlab]
        exact models_name_ne_empty _ (lookup_mem_models MODELS model_id model_info hm)
      · simp at h

/-- On success, the stage loop appends exactly one `(stage_name, response)`
entry per remaining stage, in order, after the accumulator. -/
theorem runStages_ok_names (A : Analyzer) (gemOracle : Nat → String → RawResult)
    (orOracle : Nat → String → ORRaw) (image_bytes : Bytes) (model_id : String) :
    ∀ (rem : List (String × String)) (i : Nat) (acc : List (String × String))
      (prov : Option String) (tr : List Attempt)
      (results : List (String × String)) (p : Option String) (tr' : List Attempt),
    runStages A gemOracle orOracle image_bytes model_id rem i acc prov tr =
      (.ok (results, p), tr') →
    results.map Prod.fst = acc.map Prod.fst ++ rem.map Prod.fst := by
  intro rem
  induction rem with
  | nil =>
    intro i acc prov tr results p tr' h
    simp only [runStages, Prod.mk.injEq, Except.ok.injEq] at h
    obtain ⟨⟨hres, -⟩, -⟩ := h
    subst hres
    simp
  | cons hd rest ih =>
    intro i acc prov tr results p tr' h
    obtain ⟨stage_name, prompt⟩ := hd
    simp only [runStages] at h
    split at h
    · next response used_provider t heq =>
      have hmap := ih _ _ _ _ results p tr' h
      simpa [List.append_assoc] using hmap
    · simp at h

/-- On success, a provenance value that is already a truthy (non-empty)
string is never overwritten by the stage loop. -/
theorem runStages_prov_stable (A : Analyzer) (gemOracle : Nat → String → RawResult)
    (orOracle : Nat → String → ORRaw) (image_bytes : Bytes) (model_id : String) :
    ∀ (rem : List (String × String)) (i : Nat) (acc : List (String × String))
      (pv : String) (tr : List Attempt)
      (results : List (String × String)) (q : Option String) (tr' : List Attempt),
    pv ≠ "" →
    runStages A gemOracle orOracle image_bytes model_id rem i acc (some pv) tr =
      (.ok (results, q), tr') →
    q = some pv := by
  intro rem
  induction rem with
  | nil =>
    intro i acc pv tr results q tr' hne h
    simp only [runStages, Prod.mk.injEq, Except.ok.injEq] at h
    exact h.1.2.symm
  | cons hd rest ih =>
    intro i acc pv tr results q tr' hne h
    obtain ⟨stage_name, prompt⟩ := hd
    simp only [runStages, pyFalsyOptStr, hne, decide_False, if_false, ite_false] at h
    split at h
    · next response used_provider t heq =>
      exact ih _ _ _ _ results q tr' hne h
    · simp at h

/-- One successful step of the stage loop, unfolded. -/
theorem runStages_cons_ok (A : Analyzer) (gemOracle : Nat → String → RawResult)
    (orOracle : Nat → String → ORRaw) (image_bytes : Bytes)
    (model_id stage_name prompt : String) (rest : List (String × String))
    (i : Nat) (acc : List (String × String)) (prov : Option String)
    (tr : List Attempt) (text lab : String) (t : List Attempt)
    (hcall : analyze_with_auto_fallback A (gemOracle i) (orOracle i)
        (some image_bytes) prompt model_id = (.ok (text, lab), t)) :
    runStages A gemOracle orOracle image_bytes model_id
        ((stage_name, prompt) :: rest) i acc prov tr =
      runStages A gemOracle orOracle image_bytes model_id rest (i + 1)
        (acc ++ [(stage_name, text)])
        (if pyFalsyOptStr prov then some lab else prov) (tr ++ t) := by
  simp only [runStages, hcall]

/-- C5: `comprehensive_analysis` is all-or-nothing.  Its embedding returns
either an error (the exception a failing stage raised, with no
`AnalysisResult` and no partial stage text in the success channel) or a
result with `analysis_complete = true` whose stage entries are exactly one
per defined stage, in the pipeline-declared order, with no stage skipped. -/
theorem C5_pipeline_all_or_nothing (A : Analyzer)
    (gemOracle : Nat → String → RawResult) (orOracle : Nat → String → ORRaw)
    (png_file : Option Bytes) (png_path model_id : String)
    (r : AnalysisResult) (tr : List Attempt)
    (h : comprehensive_analysis A gemOracle orOracle png_file png_path model_id =
        (.ok r, tr)) :
    r.analysis_complete = true ∧
    r.stage_results.map Prod.fst =
      ["stage_1_identification", "stage_2_system_overview", "stage_3_components",
       "stage_4_technical", "stage_5_quality"] := by
  unfold comprehensive_analysis at h
  split at h
  · simp at h
  · next image_bytes =>
    split at h
    · simp at h
    · next model_info hm =>
      split at h
      · split at h
        · next results provider_used tr2 hrun =>
          obtain ⟨hr, -⟩ := by simpa using h
          have hnames := runStages_ok_names A gemOracle orOracle image_bytes
            model_id stages 0 [] none [] results provider_used tr2 hrun
          constructor
          · rw [← hr]
          · rw [← hr]
            simpa [stages] using hnames
        · simp at h
      · simp at h

/-- C5 witness: a concrete fully successful run yields the complete record
with one entry per stage in declared order. -/
theorem C5_witness :
    comprehensive_analysis testAnalyzer gemOkN orOkN (some []) "d.png"
        "gemini-2.5-flash" = (.ok compOkResult, compOkTrace) ∧
    (compOkResult.analysis_complete = true ∧
     compOkResult.stage_results.map Prod.fst =
       ["stage_1_identification", "stage_2_system_overview", "stage_3_components",
        "stage_4_technical", "stage_5_quality"]) :=
  ⟨rfl, C5_pipeline_all_or_nothing testAnalyzer gemOkN orOkN (some []) "d.png"
      "gemini-2.5-flash" compOkResult compOkTrace rfl⟩

/-- C6: for every successful comprehensive run, the recorded `provider_used`
equals the provenance label resolved by the first stage — it is set at the
first stage (whose labels are always truthy) and never overwritten by later
stages, whatever they resolve to. -/
theorem C6_provenance_from_first_stage (A : Analyzer)
    (gemOracle : Nat → String → RawResult) (orOracle : Nat → String → ORRaw)
    (image_bytes : Bytes) (png_path model_id : String)
    (r : AnalysisResult) (tr : List Attempt) (text lab : String)
    (tr1 : List Attempt)
    (hfirst : analyze_with_auto_fallback A (gemOracle 0) (orOracle 0)
        (some image_bytes) stage_1_identification_prompt model_id =
        (.ok (text, lab), tr1))
    (h : comprehensive_analysis A gemOracle orOracle (some image_bytes)
        png_path model_id = (.ok r, tr)) :
    r.provider_used = some lab := by
  have hlabne : lab ≠ "" :=
    auto_fallback_label_ne_empty A (gemOracle 0) (orOracle 0) (some image_bytes)
      stage_1_identification_prompt model_id text lab tr1 hfirst
  simp only [comprehensive_analysis] at h
  split at h
  · simp at h
  · next model_info hm =>
    split at h
    · simp only [stages] at h
      rw [runStages_cons_ok A gemOracle orOracle image_bytes model_id
            "stage_1_identification" stage_1_identification_prompt _ 0 [] none []
            text lab tr1 hfirst] at h
      simp only [pyFalsyOptStr, List.nil_append, if_true, ite_true] at h
      split at h
      · next results provider_used tr2 hrun =>
        obtain ⟨hr, -⟩ := by simpa using h
        have hq := runStages_prov_stable A gemOracle orOracle image_bytes model_id
          _ 1 _ lab _ results provider_used tr2 hlabne hrun
        rw [← hr]
        exact hq
      · simp at h
    · simp at h

/-- C6 witness: in the concrete fully successful run the recorded
provenance equals the first stage's label. -/
theorem C6_witness :
    analyze_with_auto_fallback testAnalyzer (gemOkN 0) (orOkN 0) (some [])
        stage_1_identification_prompt "gemini-2.5-flash" =
      (.ok ("stage-text", "Google Studio gemini-2.5-flash"),
       [.gemini "gemini-2.5-flash"]) ∧
    comprehensive_analysis testAnalyzer gemOkN orOkN (some []) "d.png"
        "gemini-2.5-flash" = (.ok compOkResult, compOkTrace) ∧
    compOkResult.provider_used = some "Google Studio gemini-2.5-flash" :=
  ⟨rfl, rfl,
   C6_provenance_from_first_stage testAnalyzer gemOkN orOkN [] "d.png"
     "gemini-2.5-flash" compOkResult compOkTrace "stage-text"
     "Google Studio gemini-2.5-flash" [.gemini "gemini-2.5-flash"] rfl rfl⟩

/-- C9 counterexample: for the concrete successful analysis `compOkResult`
indexed under document id `"doc1"`, the six assembled units are stamped by
`index_documents` with `doc_id = "doc1_cad_analysis"` before being handed to
the external store — and `"doc1_cad_analysis" ≠ "doc1"`, so the stored units
do not carry the document id `"doc1"` the claim requires. -/
theorem C9_counterexample :
    (stampedDocuments (cad_stage_documents "doc1" compOkResult "plan.png")
        ("doc1" ++ "_cad_analysis")).map (fun d => d.metadata.lookup "doc_id") =
      List.replicate 6 (some "doc1_cad_analysis") ∧
    index_cad_analysis (fun _ => 1) (fun _ => none) "doc1" compOkResult "plan.png" =
      true ∧
    ("doc1_cad_analysis" : String) ≠ "doc1" :=
  ⟨rfl, rfl, by decide⟩

/-- C9 amended: for every successful analysis (all five stage texts
present) handed over with document id D, `index_cad_analysis` assembles
exactly one unit per stage plus one summary unit, in stage order, each
carrying D as `doc_id`, its stage tag as `analysis_stage`, and the model
used as `model_used`; `index_documents` then overwrites every unit's
`doc_id` with `D ++ "_cad_analysis"` before the units are handed to the
external store, so the stored units carry the derived id rather than D
itself. -/
theorem C9_amended_one_unit_per_stage_plus_summary (doc_id doc_name : String)
    (ar : AnalysisResult) (t1 t2 t3 t4 t5 : String)
    (h1 : ar.stage_results.lookup "stage_1_identification" = some t1)
    (h2 : ar.stage_results.lookup "stage_2_system_overview" = some t2)
    (h3 : ar.stage_results.lookup "stage_3_components" = some t3)
    (h4 : ar.stage_results.lookup "stage_4_technical" = some t4)
    (h5 : ar.stage_results.lookup "stage_5_quality" = some t5) :
    (cad_stage_documents doc_id ar doc_name).length = 6 ∧
    (cad_stage_documents doc_id ar doc_name).map
        (fun d => d.metadata.lookup "doc_id") =
      List.replicate 6 (some doc_id) ∧
    (cad_stage_documents doc_id ar doc_name).map
        (fun d => d.metadata.lookup "analysis_stage") =
      [some "identification", some "system_overview", some "components",
       some "technical", some "quality", some "complete"] ∧
    (cad_stage_documents doc_id ar doc_name).map
        (fun d => d.metadata.lookup "model_used") =
      List.replicate 6 (some ar.model_used) ∧
    (stampedDocuments (cad_stage_documents doc_id ar doc_name)
        (doc_id ++ "_cad_analysis")).map (fun d => d.metadata.lookup "doc_id") =
      List.replicate 6 (some (doc_id ++ "_cad_analysis")) := by
  refine ⟨?_, ?_, ?_, ?_, ?_⟩ <;>
    simp [cad_stage_documents, h1, h2, h3, h4, h5, stampedDocuments, setMeta,
      List.lookup, List.replicate]

/-- C9 amended witness: the amended statement at the concrete successful
analysis. -/
theorem C9_amended_witness :
    (cad_stage_documents "doc1" compOkResult "plan.png").length = 6 ∧
    (cad_stage_documents "doc1" compOkResult "plan.png").map
        (fun d => d.metadata.lookup "doc_id") =
      List.replicate 6 (some "doc1") ∧
    (cad_stage_documents "doc1" compOkResult "plan.png").map
        (fun d => d.metadata.lookup "analysis_stage") =
      [some "identification", some "system_overview", some "components",
       some "technical", some "quality", some "complete"] ∧
    (cad_stage_documents "doc1" compOkResult "plan.png").map
        (fun d => d.metadata.lookup "model_used") =
      List.replicate 6 (some compOkResult.model_used) ∧
    (stampedDocuments (cad_stage_documents "doc1" compOkResult "plan.png")
        ("doc1" ++ "_cad_analysis")).map (fun d => d.metadata.lookup "doc_id") =
      List.replicate 6 (some ("doc1" ++ "_cad_analysis")) :=
  C9_amended_one_unit_per_stage_plus_summary "doc1" "plan.png" compOkResult
    "stage-text" "stage-text" "stage-text" "stage-text" "stage-text"
    rfl rfl rfl rfl rfl

/-- C10: `index_cad_analysis` is total on errors — it returns `true` exactly
when the inner indexing succeeded and `false` exactly when the inner
indexing raised, so no exception ever propagates to the caller. -/
theorem C10_index_cad_analysis_total_on_errors (nodeCount : List Document → Nat)
    (store : List Document → Option String) (doc_id : String)
    (analysis_results : AnalysisResult) (doc_name : String) :
    (index_cad_analysis nodeCount store doc_id analysis_results doc_name = true ↔
      index_documents nodeCount store
        (cad_stage_documents doc_id analysis_results doc_name)
        (doc_id ++ "_cad_analysis") = .ok true) ∧
    (index_cad_analysis nodeCount store doc_id analysis_results doc_name = false ↔
      ∃ e, index_documents nodeCount store
        (cad_stage_documents doc_id analysis_results doc_name)
        (doc_id ++ "_cad_analysis") = .error e) := by
  unfold index_cad_analysis
  cases hid : index_documents nodeCount store
      (cad_stage_documents doc_id analysis_results doc_name)
      (doc_id ++ "_cad_analysis") with
  | error e => simp [hid]
  | ok b =>
    have hb : b = true := by
      unfold index_documents at hid
      split at hid
      · simp at hid
      · split at hid
        · injection hid with hid'
          exact hid'.symm
        · simp at hid
    subst hb
    simp [hid]

end DocuMind
